import Mathlib

/-!
Verification development for the secure-app repository (Garmin run analyzer).

The Python sources are shallowly embedded as executable Lean definitions:

* JSON numeric values (Python `int` / `float`) are modelled by `PyNum`, an
  exact decimal representation: `pint i` is the integer `i`, `pfloat m e` is
  the value `m / 10 ^ e`.  Real arithmetic performed by the code on floats is
  modelled exactly over `Rat`; Python `round` is half-to-even rounding, and
  `int(...)` is truncation toward zero, both reproduced here.
* Python dictionaries holding activity data become structures whose fields are
  `Option`-valued (`none` models an absent key or a JSON `null`).
* Python exceptions are modelled with `Option` / `Except`: a function that can
  raise returns `none` / `.error`, and a caller that catches turns that back
  into its fallback value.
* External collaborators (the Garmin client, the filesystem) are passed in
  explicitly: the Garmin client as a `GarminApi` record of result values, the
  filesystem for the cache-clearing routine as a list of entries.
* `datetime.now(timezone.utc)` is passed in as an explicit epoch-seconds
  parameter `now`.
-/

unseal Rat.mul Rat.sub Rat.add Rat.inv Rat.ofScientific

/-- Python numeric value: `pint i` models an `int`, `pfloat m e` models a
`float` whose value is the exact decimal `m / 10 ^ e`. -/
inductive PyNum where
  | pint (i : Int)
  | pfloat (m : Int) (e : Nat)
deriving DecidableEq

/-- Rational value of a `PyNum`. -/
def PyNum.toRat : PyNum → Rat
  | .pint i => (i : Rat)
  | .pfloat m e => (m : Rat) / ((10 : Rat) ^ e)

/-- Python `int(x)`: truncation toward zero.  `Int.tdiv` is T-division. -/
def PyNum.trunc : PyNum → Int
  | .pint i => i
  | .pfloat m e => Int.tdiv m ((10 : Int) ^ e)

/-- Floor of a rational, computed without typeclass indirection. -/
def ratFloor (q : Rat) : Int := Int.fdiv q.num (q.den : Int)

/-- Truncation of a rational toward zero, as Python `int(float)` does. -/
def ratTrunc (q : Rat) : Int := Int.tdiv q.num (q.den : Int)

/-- Python `round(x)`: round half to even. -/
def roundHalfEven (q : Rat) : Int :=
  let f := ratFloor q
  let r := q - (f : Rat)
  if r < (1 : Rat) / 2 then f
  else if (1 : Rat) / 2 < r then f + 1
  else if Int.emod f 2 = 0 then f else f + 1

/-- Python `f"{n:02d}"`: decimal rendering zero-padded to width two (the sign
counts toward the width, as in Python). -/
def pad2 (n : Int) : String :=
  let s := toString n
  if s.length < 2 then "0" ++ s else s

/-- Pad a digit string on the left with zeros up to length `n`. -/
def leftPad (s : String) (n : Nat) : String :=
  if s.length ≥ n then s else String.mk (List.replicate (n - s.length) '0') ++ s

/-- Drop trailing decimal zeros of the mantissa, keeping at least one
fractional digit, as the `repr` of a Python float does. -/
def decTrim : Int → Nat → Int × Nat
  | m, 0 => (m, 0)
  | m, 1 => (m, 1)
  | m, e + 2 =>
    if Int.emod m 10 = 0 then decTrim (Int.tdiv m 10) (e + 1) else (m, e + 2)

/-- Python `str(x)` for a numeric value: integers print without a decimal
point, floats print their shortest decimal form with at least one fractional
digit. -/
def PyNum.pyStr : PyNum → String
  | .pint i => toString i
  | .pfloat m e =>
    let p := decTrim m e
    let m1 := p.1
    let e1 := p.2
    if e1 = 0 then toString m1 ++ ".0"
    else
      (if m1 < 0 then "-" else "") ++ toString (m1.natAbs / 10 ^ e1) ++ "." ++
        leftPad (toString (m1.natAbs % 10 ^ e1)) e1

/-- Truthiness of an optional string, as Python sees a value that is either
missing, `None`, or a string: only a nonempty string is truthy. -/
def truthy : Option String → Bool
  | none => false
  | some s => !s.isEmpty

/-- Python `a or b` on two optional strings: the first if truthy, else the
second. -/
def orFalsy (a b : Option String) : Option String :=
  if truthy a then a else b

/-- Run a fallible step over each element in order, stopping at the first
failure, exactly as a Python `for` loop aborts at the first raised
exception. -/
def mapO {α β : Type} (f : α → Option β) : List α → Option (List β)
  | [] => some []
  | a :: l =>
    match f a, mapO f l with
    | some b, some bs => some (b :: bs)
    | _, _ => none

/-- Variant of `mapO` for `Except`-valued steps. -/
def mapE {ε α β : Type} (f : α → Except ε β) : List α → Except ε (List β)
  | [] => .ok []
  | a :: l =>
    match f a, mapE f l with
    | .ok b, .ok bs => .ok (b :: bs)
    | .error e, _ => .error e
    | _, .error e => .error e

/-- Embeds `_format_pace` of `src/lambda/garmin_analyzer/garmin_activities.py`
(and the identical `_fmt_pace` of `get_from_garmin.py`): `None` passes
through, otherwise minutes are `int(min_per_km)` and seconds are
`int(round((min_per_km - mins) * 60))`, rendered `M:SS min/km`. -/
def format_pace : Option Rat → Option String
  | none => none
  | some v =>
    let mins := ratTrunc v
    let secs := roundHalfEven ((v - (mins : Rat)) * 60)
    some (toString mins ++ ":" ++ pad2 secs ++ " min/km")

/-- Rendering of a pace value as the spec describes it, with `floor` in place
of the truncation the code performs; used only to compare the spec wording
against `format_pace`. -/
def format_pace_specWords (v : Rat) : String :=
  let mins := ratFloor v
  let secs := roundHalfEven ((v - (mins : Rat)) * 60)
  toString mins ++ ":" ++ pad2 secs ++ " min/km"

/-- Embeds `_calculate_pace` (identically `_pace_from`): `None` unless both
arguments are numeric and strictly positive, else `(dur_s/60)/(dist_m/1000)`
in min/km. -/
def calculate_pace : Option PyNum → Option PyNum → Option Rat
  | some d, some t =>
    if d.toRat ≤ 0 ∨ t.toRat ≤ 0 then none
    else some ((t.toRat / 60) / (d.toRat / 1000))
  | _, _ => none

/-- Embeds `_format_duration` (identically `_format_hms`): `"?"` for a
non-numeric input, else `divmod` of the rounded seconds into `H:MM:SS` when
the hour part is positive and `M:SS` otherwise. -/
def format_duration : Option PyNum → String
  | none => "?"
  | some n =>
    let secs := roundHalfEven n.toRat
    let h := Int.ediv secs 3600
    let rem := Int.emod secs 3600
    let m := Int.ediv rem 60
    let s := Int.emod rem 60
    if 0 < h then toString h ++ ":" ++ pad2 m ++ ":" ++ pad2 s
    else toString m ++ ":" ++ pad2 s

/-- Embeds `_format_interval_row` (and the row built by `_add_row`): the pace
comes from the average speed when that is numeric and positive, else from
distance and duration; the distance slot is `round(dist_m/1000.0, 2)` when the
distance is numeric and the interpolation of Python `None` otherwise; the HR
slot is the truncated heart rate or `"?"`. -/
def format_interval_row (label : String) (dist_m dur_s avg_speed_mps avg_hr : Option PyNum) :
    String :=
  let pace : Option Rat :=
    match avg_speed_mps with
    | some sp => if 0 < sp.toRat then some ((1000 / sp.toRat) / 60) else calculate_pace dist_m dur_s
    | none => calculate_pace dist_m dur_s
  let distSlot : String :=
    match dist_m with
    | some d => (PyNum.pfloat (roundHalfEven (d.toRat / 1000 * 100)) 2).pyStr
    | none => "None"
  let durationStr := format_duration dur_s
  let paceStr := (format_pace pace).getD "?"
  let hrStr :=
    match avg_hr with
    | some h => toString h.trunc
    | none => "?"
  label ++ " - " ++ distSlot ++ "km - " ++ durationStr ++ " (duration) - " ++
    paceStr ++ " pace - " ++ hrStr ++ " HR"

/-- Embeds `_add_row` of `get_from_garmin.py`, which appends the identically
formatted row to its accumulator list. -/
def add_row (rows : List String) (label : String)
    (dist_m dur_s avg_speed_mps avg_hr : Option PyNum) : List String :=
  rows ++ [format_interval_row label dist_m dur_s avg_speed_mps avg_hr]

/-- One `Lap` element of a parsed TCX document, as `_parse_tcx_intervals`
reads it: the three `findtext` results (absent element modelled as `none`,
which `findtext` turns into its default) and the `Intensity` text. -/
structure TcxLap where
  durText : Option String
  distText : Option String
  hrText : Option String
  intensity : Option String
deriving DecidableEq

/-- Grammar of Python `float(s)` restricted to finite decimal literals:
optional surrounding whitespace, optional sign, digits with an optional
fractional part, and an optional decimal exponent. -/
def pyFloatOfString (s : String) : Option PyNum :=
  let cs := (s.toList.dropWhile Char.isWhitespace).reverse.dropWhile Char.isWhitespace |>.reverse
  let signAndRest : Int × List Char :=
    match cs with
    | '-' :: rest => (-1, rest)
    | '+' :: rest => (1, rest)
    | rest => (1, rest)
  let sgn := signAndRest.1
  let body := signAndRest.2
  let mantAndExp : List Char × Option (List Char) :=
    match body.splitOn 'e', body.splitOn 'E' with
    | [m, x], _ => (m, some x)
    | _, [m, x] => (m, some x)
    | _, _ => (body, none)
  let mant := mantAndExp.1
  let digitsToNat : List Char → Nat := fun ds =>
    ds.foldl (fun a c => a * 10 + (c.toNat - 48)) 0
  let allDigits : List Char → Bool := fun ds => ds.all Char.isDigit
  let mantParts : Option (Nat × Nat) :=
    match mant.splitOn '.' with
    | [ip] => if !ip.isEmpty && allDigits ip then some (digitsToNat ip, 0) else none
    | [ip, fp] =>
      if (!ip.isEmpty || !fp.isEmpty) && allDigits ip && allDigits fp then
        some (digitsToNat (ip ++ fp), fp.length)
      else none
    | _ => none
  match mantParts with
  | none => none
  | some (mval, fdigits) =>
    match mantAndExp.2 with
    | none => some (.pfloat (sgn * (mval : Int)) fdigits)
    | some expPart =>
      let expSigned : Int × List Char :=
        match expPart with
        | '-' :: rest => (-1, rest)
        | '+' :: rest => (1, rest)
        | rest => (1, rest)
      if !expSigned.2.isEmpty && allDigits expSigned.2 then
        let k : Int := expSigned.1 * (digitsToNat expSigned.2 : Int)
        if 0 ≤ k then
          some (.pfloat (sgn * (mval : Int) * 10 ^ k.toNat) fdigits)
        else
          some (.pfloat (sgn * (mval : Int)) (fdigits + (-k).toNat))
      else none

/-- One numeric field of a lap: `float(text) if text else None`, where a
`float` failure raises and aborts the surrounding loop. -/
def lapFloat (t : Option String) : Except Unit (Option PyNum) :=
  let s := t.getD ""
  if s.isEmpty then .ok none
  else
    match pyFloatOfString s with
    | some n => .ok (some n)
    | none => .error ()

/-- Formats one lap of a TCX document as `_parse_tcx_intervals` does inside
its loop: read the three numeric texts (a malformed one raises) and build the
interval row with `avg_speed_mps=None`. -/
def formatLapRow (lap : TcxLap) : Except Unit String := do
  let dur_s ← lapFloat lap.durText
  let dist_m ← lapFloat lap.distText
  let avg_hr ← lapFloat lap.hrText
  pure (format_interval_row (lap.intensity.getD "lap") dist_m dur_s none avg_hr)

/-- Embeds `_parse_tcx_intervals` (identically `_intervals_from_tcx_path`).
The input is the result of `ET.parse`: `.error` when the document failed to
parse, `.ok laps` with the list of `Lap` elements in document order
otherwise.  Any exception inside the loop is caught by the surrounding
`try`, and an empty row list is turned into `None`. -/
def parse_tcx_intervals : Except String (List TcxLap) → Option (List String)
  | .error _ => none
  | .ok laps =>
    match mapE formatLapRow laps with
    | .error _ => none
    | .ok rows => if rows.isEmpty then none else some rows

/-- Split a character list at every separator satisfying `p`, keeping empty
pieces, as Python `str.split(sep)` does for a one-character separator. -/
def charSplit (p : Char → Bool) (cs : List Char) : List String :=
  (cs.foldr
    (fun c acc =>
      match acc with
      | [] => [[c]]
      | t :: ts => if p c then [] :: t :: ts else (c :: t) :: ts)
    [[]]).map String.mk

/-- One step of `posixpath.normpath` component processing: `..` pops the last
component unless the stack is empty at the filesystem root, is empty in a
relative path, or already ends in `..`. -/
def normpathStep (slashes : Nat) (acc : List String) (c : String) : List String :=
  if c ≠ ".." then acc ++ [c]
  else if (slashes = 0 ∧ acc = []) ∨ acc.getLast? = some ".." then acc ++ [c]
  else if acc ≠ [] then acc.dropLast
  else acc

/-- Embeds `os.path.normpath` for POSIX paths: collapse repeated separators
and `.` components, resolve `..` textually, preserve one or exactly two
leading slashes, and return `.` for an empty result. -/
def normpath (p : String) : String :=
  if p = "" then "."
  else
    let slashes : Nat :=
      match p.toList with
      | '/' :: '/' :: '/' :: _ => 1
      | '/' :: '/' :: _ => 2
      | '/' :: _ => 1
      | _ => 0
    let comps := (charSplit (fun c => c = '/') p.toList).filter (fun c => c ≠ "" && c ≠ ".")
    let newComps := comps.foldl (normpathStep slashes) []
    let body := String.join (match newComps with
      | [] => []
      | c :: cs => c :: cs.map (fun x => "/" ++ x))
    let res := String.mk (List.replicate slashes '/') ++ body
    if res = "" then "." else res

/-- Embeds `os.path.basename`: everything after the last separator. -/
def basename (p : String) : String :=
  (charSplit (fun c => c = '/') p.toList).getLastD ""

/-- Kind of a filesystem entry, as the cleanup loop distinguishes them. -/
inductive EntryKind where
  | file
  | dir
  | symlink
deriving DecidableEq

/-- One filesystem entry: its path as a component list and its kind. -/
structure FsEntry where
  path : List String
  kind : EntryKind
deriving DecidableEq

/-- The filesystem, for the cache-clearing routine: the list of existing
entries. -/
abbrev Fs : Type := List FsEntry

/-- Component list of a path, after normalization. -/
def pathComps (p : String) : List String :=
  (charSplit (fun c => c = '/') (normpath p).toList).filter (fun c => c ≠ "")

/-- Does the filesystem contain `comps` as a directory? -/
def isDirIn (fs : Fs) (comps : List String) : Bool :=
  fs.any (fun e => e.path == comps && e.kind == EntryKind.dir)

/-- Is `q` strictly below the directory `comps`? -/
def strictlyUnder (comps q : List String) : Bool :=
  comps.isPrefixOf q && q.length > comps.length

/-- Effect of `os.makedirs(path, exist_ok=True)`: add every missing prefix of
the path as a directory. -/
def makedirs (fs : Fs) (comps : List String) : Fs :=
  let prefixes := (List.range comps.length).map (fun i => comps.take (i + 1))
  fs ++ (prefixes.filter (fun pre => !fs.any (fun e => e.path == pre))).map
    (fun pre => FsEntry.mk pre EntryKind.dir)

/-- Embeds `_cleanup_cache_dir` of `garmin_activities.py` (identically
`_wipe_dir_contents` of `get_from_garmin.py`) as a function on the modelled
filesystem: an empty path returns immediately; a path whose final component
after normalization is not `.fitcache` is refused; a matching path that is
not a directory is created; otherwise every entry of the directory is
removed, files and symlinks by `unlink` and subdirectories by
`shutil.rmtree`, which together delete exactly the entries strictly below
the directory. -/
def cleanup_cache_dir (cache_dir : String) (fs : Fs) : Fs :=
  if cache_dir = "" then fs
  else if basename (normpath cache_dir) ≠ ".fitcache" then fs
  else
    let comps := pathComps cache_dir
    if isDirIn fs comps then
      fs.filter (fun e => !strictlyUnder comps e.path)
    else makedirs fs comps

/-- Alias for the identical routine `_wipe_dir_contents` of
`get_from_garmin.py`. -/
def wipe_dir_contents : String → Fs → Fs := cleanup_cache_dir

/-- Normalized activity record assembled by the fetchers and consumed by the
handler filters: JSON object with these keys, absent-or-null modelled as
`none`. -/
structure ActivityRec where
  activityId : Option String
  startTimeLocal : Option String
  activityType : Option String
  distanceKm : Option PyNum
  durationMin : Option PyNum
  name : Option String
  intervals : Option (List String)
deriving DecidableEq

/-- Platform-native activity dictionary, restricted to the keys the fetchers
read.  `typeKey` is the result of
`(activity.get("activityType", {}) or {}).get("typeKey")`. -/
structure RawActivity where
  activityName : Option String
  activityNameOriginal : Option String
  typeKey : Option String
  startTimeLocal : Option String
  distance : Option PyNum
  duration : Option PyNum
  activityId : Option String
  activityIdOriginal : Option String
  activityUUID : Option String
deriving DecidableEq

/-- External Garmin client, abstracted as the results its calls produce in
one fetch cycle: the outcome of constructing the client plus `login()`, the
outcome of `get_activities`, and for each activity id the TCX retrieval
outcome (`none` when no TCX file could be obtained, otherwise the parse
result of the obtained file). -/
structure GarminApi where
  login : Except String Unit
  getActivities : Except String (List RawActivity)
  tcxFor : String → Option (Except String (List TcxLap))

/-- Value returned by a fetcher: either the JSON error object
`{ "error": msg }` or the JSON list of activity records. -/
inductive FetchResult where
  | errObj (msg : String)
  | records (recs : List ActivityRec)
deriving DecidableEq

/-- Per-activity record assembly shared verbatim by both fetcher modules:
falsy-chained name and id, `typeKey`, rounded distance and duration, and the
best-effort interval extraction for running activities with a usable id. -/
def buildRecord (api : GarminApi) (a : RawActivity) : ActivityRec :=
  let name := orFalsy a.activityName a.activityNameOriginal
  let activity_id := orFalsy (orFalsy a.activityId a.activityIdOriginal) a.activityUUID
  let distance_km := a.distance.map (fun n => PyNum.pfloat (roundHalfEven (n.toRat / 1000 * 100)) 2)
  let duration_min := a.duration.map (fun n => PyNum.pfloat (roundHalfEven (n.toRat / 60 * 10)) 1)
  let intervals :=
    if truthy activity_id && (a.typeKey == some "running") then
      match api.tcxFor (activity_id.getD "") with
      | none => none
      | some parseRes => parse_tcx_intervals parseRes
    else none
  ActivityRec.mk activity_id a.startTimeLocal a.typeKey distance_km duration_min name intervals

/-- Embeds `get_recent_garmin_activities` of
`src/lambda/garmin_analyzer/garmin_activities.py`.  Credentials come from the
environment; a missing credential, a failed login, or a failed activity
listing each return the JSON error object; otherwise the listed activities
are assembled into records.  The cache-directory side effects do not touch
the returned value and are modelled by `cleanup_cache_dir`; `json.dumps` is
abstracted to the structured payload it serializes. -/
def GarminActivities.get_recent_garmin_activities
    (username password : Option String) (api : GarminApi) : Except String FetchResult :=
  if !truthy username || !truthy password then
    .ok (.errObj "Missing GARMIN_USERNAME or GARMIN_PASSWORD environment variables")
  else
    match api.login with
    | .error e => .ok (.errObj ("Failed to authenticate with Garmin Connect: " ++ e))
    | .ok _ =>
      match api.getActivities with
      | .error e => .ok (.errObj ("Failed to fetch activities: " ++ e))
      | .ok acts => .ok (.records (acts.map (buildRecord api)))

/-- Embeds `get_recent_garmin_activities` of
`src/src/lambda/garmin_analyzer/get_from_garmin.py`.  Only the
missing-credential case returns the JSON error object; `api.login()` and
`api.get_activities(...)` are called outside any `try`, so their exceptions
propagate to the caller. -/
def GetFromGarmin.get_recent_garmin_activities
    (username password : Option String) (api : GarminApi) : Except String FetchResult :=
  if !truthy username || !truthy password then
    .ok (.errObj "Missing GARMIN_EMAIL / GARMIN_PASSWORD in .env")
  else
    match api.login with
    | .error e => .error e
    | .ok _ =>
      match api.getActivities with
      | .error e => .error e
      | .ok acts => .ok (.records (acts.map (buildRecord api)))

/-- Numeric value of a decimal digit character. -/
def digitVal (c : Char) : Nat := c.toNat - 48

/-- Match one field of the `strptime` regex that is either a two-digit or a
one-digit alternative, two digits tried first, as the compiled pattern
does.  Each field is followed by a non-digit in the format, so the greedy
choice is the only one that can succeed. -/
def field2 (valid2 valid1 : Nat → Bool) : List Char → Option (Nat × List Char)
  | a :: b :: rest =>
    if a.isDigit && b.isDigit && valid2 (digitVal a * 10 + digitVal b) then
      some (digitVal a * 10 + digitVal b, rest)
    else if a.isDigit && valid1 (digitVal a) then some (digitVal a, b :: rest)
    else none
  | [a] => if a.isDigit && valid1 (digitVal a) then some (digitVal a, []) else none
  | [] => none

/-- Match a literal character of the format. -/
def litChar (c : Char) : List Char → Option (List Char)
  | a :: rest => if a = c then some rest else none
  | [] => none

/-- Match the one-or-more-whitespace pattern a space in the format compiles
to. -/
def wsPlus : List Char → Option (List Char)
  | a :: rest => if a.isWhitespace then some (rest.dropWhile Char.isWhitespace) else none
  | [] => none

/-- Is `y` a leap year of the proleptic Gregorian calendar? -/
def isLeap (y : Nat) : Bool :=
  (y % 4 == 0 && y % 100 != 0) || y % 400 == 0

/-- Length of month `m` in year `y`. -/
def daysInMonth (y m : Nat) : Nat :=
  if m = 2 then (if isLeap y then 29 else 28)
  else if m = 4 ∨ m = 6 ∨ m = 9 ∨ m = 11 then 30
  else 31

/-- Days from 1970-01-01 to the given civil date (Hinnant's algorithm). -/
def daysFromCivil (y : Int) (m d : Nat) : Int :=
  let y1 : Int := if m ≤ 2 then y - 1 else y
  let era : Int := Int.fdiv y1 400
  let yoe : Nat := (y1 - era * 400).toNat
  let mp : Nat := (m + 9) % 12
  let doy : Nat := (153 * mp + 2) / 5 + d - 1
  let doe : Nat := yoe * 365 + yoe / 4 - yoe / 100 + doy
  era * 146097 + (doe : Int) - 719468

/-- Embeds `datetime.strptime(s, "%Y-%m-%d %H:%M:%S")` followed by
`replace(tzinfo=timezone.utc)`, returning the epoch second of the parsed
instant or `none` on `ValueError`.  The field patterns are those of
CPython: exactly four digits for `%Y`, one or two digits with the
range built into the pattern for the other fields, one-or-more whitespace
for the literal space, and no unconverted trailing data; the `datetime`
constructor then rejects year 0, a day beyond the month length, and a
leap second. -/
def parseDT (s : String) : Option Int :=
  let cs := s.toList
  match cs with
  | y1 :: y2 :: y3 :: y4 :: rest0 =>
    if !(y1.isDigit && y2.isDigit && y3.isDigit && y4.isDigit) then none
    else
      let y := digitVal y1 * 1000 + digitVal y2 * 100 + digitVal y3 * 10 + digitVal y4
      match litChar '-' rest0 with
      | none => none
      | some rest1 =>
        match field2 (fun n => 1 ≤ n && n ≤ 12) (fun n => 1 ≤ n && n ≤ 9) rest1 with
        | none => none
        | some (mo, rest2) =>
          match litChar '-' rest2 with
          | none => none
          | some rest3 =>
            match field2 (fun n => 1 ≤ n && n ≤ 31) (fun n => 1 ≤ n && n ≤ 9) rest3 with
            | none => none
            | some (d, rest4) =>
              match wsPlus rest4 with
              | none => none
              | some rest5 =>
                match field2 (fun n => n ≤ 23) (fun _ => true) rest5 with
                | none => none
                | some (h, rest6) =>
                  match litChar ':' rest6 with
                  | none => none
                  | some rest7 =>
                    match field2 (fun n => n ≤ 59) (fun _ => true) rest7 with
                    | none => none
                    | some (mi, rest8) =>
                      match litChar ':' rest8 with
                      | none => none
                      | some rest9 =>
                        match field2 (fun n => n ≤ 61) (fun _ => true) rest9 with
                        | none => none
                        | some (sec, rest10) =>
                          if rest10 ≠ [] then none
                          else if y = 0 ∨ d > daysInMonth y mo ∨ sec > 59 then none
                          else
                            some (daysFromCivil (y : Int) mo d * 86400 +
                              (h : Int) * 3600 + (mi : Int) * 60 + (sec : Int))
  | _ => none

/-- Predicate of `filter_activities_by_date` of both `handler.py` files: the
activity has a start-time string that is nonempty, parses, and lies at or
after `now - days` days.  `now` is the epoch second of
`datetime.now(timezone.utc)`. -/
def keepByDate (now : Int) (days : Nat) (a : ActivityRec) : Bool :=
  match a.startTimeLocal with
  | none => false
  | some s =>
    if s = "" then false
    else
      match parseDT s with
      | none => false
      | some t => decide (now - (days : Int) * 86400 ≤ t)

/-- Embeds `filter_activities_by_date` (identical in both handler modules):
keep, in order, the activities whose parsed start time is within the last
`days` days. -/
def filter_activities_by_date (now : Int) (days : Nat) (activities : List ActivityRec) :
    List ActivityRec :=
  activities.filter (keepByDate now days)

/-- Predicate of `filter_recent_runs`: additionally requires
`activityType == "running"`. -/
def keepRecentRun (now : Int) (hours : Nat) (a : ActivityRec) : Bool :=
  if a.activityType ≠ some "running" then false
  else
    match a.startTimeLocal with
    | none => false
    | some s =>
      if s = "" then false
      else
        match parseDT s with
        | none => false
        | some t => decide (now - (hours : Int) * 3600 ≤ t)

/-- Embeds `filter_recent_runs` (identical in both handler modules): keep, in
order, the running activities whose parsed start time is within the last
`hours` hours. -/
def filter_recent_runs (now : Int) (hours : Nat) (activities : List ActivityRec) :
    List ActivityRec :=
  activities.filter (keepRecentRun now hours)

/-- Embeds `html.escape` with its default `quote=True`. -/
def htmlEscapeChar (c : Char) : String :=
  if c = '&' then "&amp;"
  else if c = '<' then "&lt;"
  else if c = '>' then "&gt;"
  else if c = '"' then "&quot;"
  else if c = Char.ofNat 39 then "&#x27;"
  else String.singleton c

/-- Escape every character of a string for HTML. -/
def htmlEscape (s : String) : String :=
  String.join (s.toList.map htmlEscapeChar)

/-- One element of the `recent_runs` list the web app reads from the stored
bundle, restricted to the keys `format_runs_fallback` uses.  For
`distanceKm` the code distinguishes an absent key (default `"?"`) from a
stored JSON `null` (interpolated as `None`), so that field is doubly
optional: `none` is an absent key, `some none` a null, `some (some n)` a
number. -/
structure RunEntry where
  startTimeLocal : Option String
  name : Option String
  distanceKm : Option (Option PyNum)
  durationMin : Option PyNum
deriving DecidableEq

/-- Python `str.split()` with no argument: split on whitespace runs,
producing no empty tokens. -/
def splitWs (s : String) : List String :=
  (charSplit Char.isWhitespace s.toList).filter (fun t => t ≠ "")

/-- One `<li>` row of the fallback listing, as the loop body of
`format_runs_fallback` builds it.  The date is the first
whitespace-separated token of the start time; on an empty or missing start
time `(... or "").split()[0]` raises `IndexError`, modelled as `none`. -/
def renderRunItem (r : RunEntry) : Option String :=
  match splitWs (r.startTimeLocal.getD "") with
  | [] => none
  | t :: _ =>
    let date := if t = "" then "?" else t
    let nm := htmlEscape ((orFalsy r.name (some "Run")).getD "Run")
    let dist :=
      match r.distanceKm with
      | none => "?"
      | some none => "None"
      | some (some n) => n.pyStr
    let dur :=
      match r.durationMin with
      | none => "?"
      | some n =>
        toString n.trunc ++ ":" ++
          pad2 (ratTrunc ((n.toRat - (ratFloor n.toRat : Rat)) * 60))
    some ("<li>" ++ date ++ " - " ++ nm ++ ", " ++ dist ++ " km, " ++ dur ++
      ", avg HR N/A</li>")

/-- The rows rendered by `format_runs_fallback`: only the first fifteen runs
of the input are visited. -/
def fallbackItems (recent_runs : List RunEntry) : Option (List String) :=
  mapO renderRunItem (recent_runs.take 15)

/-- Embeds `format_runs_fallback` of `src/src/web_app/app.py`: the fixed
no-runs list for an empty input, otherwise `<ul>`, one `<li>` per rendered
run, `</ul>`, joined with the empty separator.  `none` models the
`IndexError` escaping the function. -/
def format_runs_fallback (recent_runs : List RunEntry) : Option String :=
  if recent_runs.isEmpty then some "<ul><li>No recent runs.</li></ul>"
  else (fallbackItems recent_runs).map (fun its => "<ul>" ++ String.join its ++ "</ul>")

/-- Length preservation of `mapO` on success. -/
theorem mapO_length {α β : Type} (f : α → Option β) :
    ∀ (l : List α) (bs : List β), mapO f l = some bs → bs.length = l.length := by
  intro l
  induction l with
  | nil => intro bs h; simp [mapO] at h; simp [← h]
  | cons a l ih =>
    intro bs h
    simp only [mapO] at h
    cases hfa : f a with
    | none => rw [hfa] at h; simp at h
    | some b =>
      rw [hfa] at h
      cases hml : mapO f l with
      | none => rw [hml] at h; simp at h
      | some bs0 =>
        rw [hml] at h
        simp at h
        subst h
        simp [ih bs0 hml]

/-- C1: `format_runs_fallback` on the empty list produces the fixed no-runs
markup, but on the single test run with `durationMin = 60` it renders the
duration as `60:00` (whole minutes, then the fractional minute as seconds),
not the `1:00` the claim and the repository test
`test_format_runs_single_run` expect. -/
theorem C1_format_runs_fallback_eval :
    format_runs_fallback [] = some "<ul><li>No recent runs.</li></ul>" ∧
    format_runs_fallback [RunEntry.mk (some "2026-02-24 10:00:00") (some "Run 1")
        (some (some (PyNum.pint 10))) (some (PyNum.pint 60))] =
      some "<ul><li>2026-02-24 - Run 1, 10 km, 60:00, avg HR N/A</li></ul>" ∧
    format_runs_fallback [RunEntry.mk (some "2026-02-24 10:00:00") (some "Run 1")
        (some (some (PyNum.pint 10))) (some (PyNum.pint 60))] ≠
      some "<ul><li>2026-02-24 - Run 1, 10 km, 1:00, avg HR N/A</li></ul>" := by
  refine ⟨rfl, by decide, by decide⟩

/-- C2 counterexample: with a non-numeric distance the distance slot of an
interval row is the interpolation of Python `None`, not `"?"`. -/
theorem C2_counterexample :
    format_interval_row "lap" none (some (PyNum.pint 60)) none none =
      "lap - Nonekm - 1:00 (duration) - ? pace - ? HR" ∧
    format_interval_row "lap" none (some (PyNum.pint 60)) none none ≠
      "lap - ?km - 1:00 (duration) - ? pace - ? HR" := by
  refine ⟨by decide, by decide⟩

/-- C2 (amended): every interval row has the fixed shape
`label - {distance}km - {duration} (duration) - {pace} pace - {hr} HR`,
where the distance slot is the distance in kilometers rounded to two
decimals when the distance is numeric and the literal `None` otherwise, and
the HR slot is the heart rate truncated to an integer when numeric and `"?"`
otherwise. -/
theorem C2_interval_row_format (label : String)
    (dist_m dur_s avg_speed_mps avg_hr : Option PyNum) :
    ∃ paceStr : String,
      format_interval_row label dist_m dur_s avg_speed_mps avg_hr =
        label ++ " - " ++
          (match dist_m with
            | some d => (PyNum.pfloat (roundHalfEven (d.toRat / 1000 * 100)) 2).pyStr
            | none => "None") ++ "km - " ++
          format_duration dur_s ++ " (duration) - " ++ paceStr ++ " pace - " ++
          (match avg_hr with
            | some h => toString h.trunc
            | none => "?") ++ " HR" :=
  ⟨_, rfl⟩

/-- C7 counterexample: at the pace `-5.5` the code truncates the minutes
toward zero and renders `-5:-30 min/km`, while the formula of the claim,
which uses `floor`, yields `-6:30 min/km`. -/
theorem C7_counterexample :
    format_pace (some (-(11 : Rat) / 2)) = some "-5:-30 min/km" ∧
    format_pace_specWords (-(11 : Rat) / 2) = "-6:30 min/km" ∧
    format_pace (some (-(11 : Rat) / 2)) ≠
      some (format_pace_specWords (-(11 : Rat) / 2)) := by
  refine ⟨by decide, by decide, by decide⟩

/-- C7 (amended): `format_pace` passes an undefined input through; for a
defined value it renders `int`-truncated whole minutes, a colon, and
`round((value - int(value)) * 60)` as a two-digit seconds field followed by
` min/km` (for nonnegative paces the truncation agrees with the `floor` of
the claim); `format_pace 5.5 = "5:30 min/km"`, and at `4.9999` the seconds
round to `60` without carrying into the minutes. -/
theorem C7_format_pace (v : Rat) :
    format_pace none = none ∧
    format_pace (some v) =
      some (toString (ratTrunc v) ++ ":" ++
        pad2 (roundHalfEven ((v - (ratTrunc v : Rat)) * 60)) ++ " min/km") ∧
    (0 ≤ v → ratTrunc v = ratFloor v) ∧
    format_pace (some ((11 : Rat) / 2)) = some "5:30 min/km" ∧
    format_pace (some ((49999 : Rat) / 10000)) = some "4:60 min/km" := by
  refine ⟨rfl, rfl, ?_, by decide, by decide⟩
  intro hv
  have hden : (0 : Int) ≤ (v.den : Int) := by positivity
  have hnum : 0 ≤ v.num := Rat.num_nonneg.mpr hv
  unfold ratTrunc ratFloor
  exact (Int.fdiv_eq_tdiv hnum hden).symm

/-- C7 witness for the hypothesis of the truncation-equals-floor conjunct. -/
theorem C7_format_pace_witness :
    (0 : Rat) ≤ (11 : Rat) / 2 ∧ ratTrunc ((11 : Rat) / 2) = ratFloor ((11 : Rat) / 2) :=
  ⟨by decide, (C7_format_pace ((11 : Rat) / 2)).2.2.1 (by decide)⟩

/-- C8: `calculate_pace` returns the pace `(dur_s/60)/(dist_m/1000)` for
numeric, strictly positive inputs and is undefined for a missing or
non-positive input. -/
theorem C8_calculate_pace (d t : PyNum) :
    calculate_pace none (some t) = none ∧
    calculate_pace (some d) none = none ∧
    calculate_pace none none = none ∧
    (0 < d.toRat → 0 < t.toRat →
      calculate_pace (some d) (some t) = some ((t.toRat / 60) / (d.toRat / 1000))) ∧
    ((d.toRat ≤ 0 ∨ t.toRat ≤ 0) → calculate_pace (some d) (some t) = none) := by
  refine ⟨rfl, rfl, rfl, fun hd ht => ?_, fun h => ?_⟩
  · have hcond : ¬ (d.toRat ≤ 0 ∨ t.toRat ≤ 0) := by
      push_neg
      exact ⟨hd, ht⟩
    simp [calculate_pace, hcond]
  · simp [calculate_pace, h]

/-- C8 witness: the pace of 1000 meters in 300 seconds is defined and the
positivity hypotheses hold there. -/
theorem C8_calculate_pace_witness :
    0 < (PyNum.pint 1000).toRat ∧ 0 < (PyNum.pint 300).toRat ∧
    calculate_pace (some (PyNum.pint 1000)) (some (PyNum.pint 300)) =
      some (((PyNum.pint 300).toRat / 60) / ((PyNum.pint 1000).toRat / 1000)) :=
  ⟨by decide, by decide,
    (C8_calculate_pace (PyNum.pint 1000) (PyNum.pint 300)).2.2.2.1 (by decide) (by decide)⟩

/-- C3 counterexample: with credentials present and a failing login, the
`get_from_garmin.py` fetcher propagates the authentication exception instead
of returning the JSON error object. -/
theorem C3_counterexample :
    GetFromGarmin.get_recent_garmin_activities (some "user") (some "pass")
      (GarminApi.mk (Except.error "bad credentials") (Except.ok []) (fun _ => none)) =
      Except.error "bad credentials" := rfl

/-- C3 (amended): the `garmin_activities.py` fetcher always returns normally:
with the `{ "error": msg }` object when credentials are missing, when
authentication fails, or when the activity listing fails, and with the list
of assembled records otherwise; the `get_from_garmin.py` fetcher returns the
error object only for missing credentials, while its authentication and
listing exceptions propagate. -/
theorem C3_fetcher_error_surface (username password : Option String) (api : GarminApi)
    (e : String) (acts : List RawActivity) :
    (∃ v, GarminActivities.get_recent_garmin_activities username password api = Except.ok v) ∧
    (truthy username = true → truthy password = true → api.login = Except.error e →
      GarminActivities.get_recent_garmin_activities username password api =
        Except.ok (FetchResult.errObj ("Failed to authenticate with Garmin Connect: " ++ e))) ∧
    (truthy username = true → truthy password = true → api.login = Except.ok () →
      api.getActivities = Except.error e →
      GarminActivities.get_recent_garmin_activities username password api =
        Except.ok (FetchResult.errObj ("Failed to fetch activities: " ++ e))) ∧
    (truthy username = true → truthy password = true → api.login = Except.ok () →
      api.getActivities = Except.ok acts →
      GarminActivities.get_recent_garmin_activities username password api =
        Except.ok (FetchResult.records (acts.map (buildRecord api)))) ∧
    ((truthy username = false ∨ truthy password = false) →
      GetFromGarmin.get_recent_garmin_activities username password api =
        Except.ok (FetchResult.errObj "Missing GARMIN_EMAIL / GARMIN_PASSWORD in .env")) ∧
    (truthy username = true → truthy password = true → api.login = Except.error e →
      GetFromGarmin.get_recent_garmin_activities username password api = Except.error e) ∧
    (truthy username = true → truthy password = true → api.login = Except.ok () →
      api.getActivities = Except.error e →
      GetFromGarmin.get_recent_garmin_activities username password api = Except.error e) ∧
    (truthy username = true → truthy password = true → api.login = Except.ok () →
      api.getActivities = Except.ok acts →
      GetFromGarmin.get_recent_garmin_activities username password api =
        Except.ok (FetchResult.records (acts.map (buildRecord api)))) ∧
    (∀ msg : String,
      GetFromGarmin.get_recent_garmin_activities username password api =
        Except.ok (FetchResult.errObj msg) →
      (truthy username = false ∨ truthy password = false) ∧
      msg = "Missing GARMIN_EMAIL / GARMIN_PASSWORD in .env") := by
  refine ⟨?_, ?_, ?_, ?_, ?_, ?_, ?_, ?_, ?_⟩
  · unfold GarminActivities.get_recent_garmin_activities
    split
    · exact ⟨_, rfl⟩
    · split
      · exact ⟨_, rfl⟩
      · split
        · exact ⟨_, rfl⟩
        · exact ⟨_, rfl⟩
  · intro hu hp hl
    simp [GarminActivities.get_recent_garmin_activities, hu, hp, hl]
  · intro hu hp hl hg
    simp [GarminActivities.get_recent_garmin_activities, hu, hp, hl, hg]
  · intro hu hp hl hg
    simp [GarminActivities.get_recent_garmin_activities, hu, hp, hl, hg]
  · intro h
    cases h with
    | inl h => simp [GetFromGarmin.get_recent_garmin_activities, h]
    | inr h => simp [GetFromGarmin.get_recent_garmin_activities, h]
  · intro hu hp hl
    simp [GetFromGarmin.get_recent_garmin_activities, hu, hp, hl]
  · intro hu hp hl hg
    simp [GetFromGarmin.get_recent_garmin_activities, hu, hp, hl, hg]
  · intro hu hp hl hg
    simp [GetFromGarmin.get_recent_garmin_activities, hu, hp, hl, hg]
  · intro msg h
    by_cases hu : truthy username = true
    · by_cases hpw : truthy password = true
      · exfalso
        cases hl : api.login with
        | error e0 =>
          simp [GetFromGarmin.get_recent_garmin_activities, hu, hpw, hl] at h
        | ok u0 =>
          cases u0
          cases hg : api.getActivities with
          | error e0 =>
            simp [GetFromGarmin.get_recent_garmin_activities, hu, hpw, hl, hg] at h
          | ok acts0 =>
            simp [GetFromGarmin.get_recent_garmin_activities, hu, hpw, hl, hg] at h
      · have hpf : truthy password = false := by
          revert hpw
          cases truthy password <;> simp
        refine ⟨Or.inr hpf, ?_⟩
        simp [GetFromGarmin.get_recent_garmin_activities, hpf] at h
        exact h.symm
    · have huf : truthy username = false := by
        revert hu
        cases truthy username <;> simp
      refine ⟨Or.inl huf, ?_⟩
      simp [GetFromGarmin.get_recent_garmin_activities, huf] at h
      exact h.symm

/-- C3 witness: a failing login with credentials present yields the error
object from the `garmin_activities.py` fetcher, and a failing activity
listing with credentials present propagates out of the `get_from_garmin.py`
fetcher. -/
theorem C3_fetcher_error_surface_witness :
    GarminActivities.get_recent_garmin_activities (some "u") (some "p")
      (GarminApi.mk (Except.error "boom") (Except.ok []) (fun _ => none)) =
      Except.ok (FetchResult.errObj ("Failed to authenticate with Garmin Connect: " ++ "boom")) ∧
    GetFromGarmin.get_recent_garmin_activities (some "u") (some "p")
      (GarminApi.mk (Except.ok ()) (Except.error "listing down") (fun _ => none)) =
      Except.error "listing down" :=
  ⟨(C3_fetcher_error_surface (some "u") (some "p")
      (GarminApi.mk (Except.error "boom") (Except.ok []) (fun _ => none)) "boom" []).2.1
      (by decide) (by decide) rfl,
    (C3_fetcher_error_surface (some "u") (some "p")
      (GarminApi.mk (Except.ok ()) (Except.error "listing down") (fun _ => none))
      "listing down" []).2.2.2.2.2.2.1 (by decide) (by decide) rfl rfl⟩

/-- C4: the cache-clearing routine leaves the filesystem unchanged whenever
the final component of the normalized path is not `.fitcache`, and any entry
it removes lies strictly below a directory whose final component is
`.fitcache`. -/
theorem C4_cleanup_refuses_foreign_dirs :
    (∀ (p : String) (fs : Fs), basename (normpath p) ≠ ".fitcache" →
      cleanup_cache_dir p fs = fs) ∧
    (∀ (p : String) (fs : Fs) (e : FsEntry), e ∈ fs → e ∉ cleanup_cache_dir p fs →
      basename (normpath p) = ".fitcache" ∧ strictlyUnder (pathComps p) e.path = true) := by
  constructor
  · intro p fs h
    by_cases hp : p = ""
    · simp [cleanup_cache_dir, hp]
    · simp [cleanup_cache_dir, hp, h]
  · intro p fs e he hne
    by_cases hp : p = ""
    · rw [cleanup_cache_dir, if_pos hp] at hne
      exact absurd he hne
    · by_cases hb : basename (normpath p) = ".fitcache"
      · refine ⟨hb, ?_⟩
        rw [cleanup_cache_dir, if_neg hp, if_neg (by simp [hb])] at hne
        by_cases hd : isDirIn fs (pathComps p)
        · rw [if_pos hd] at hne
          by_cases hs : strictlyUnder (pathComps p) e.path
          · exact hs
          · exact absurd (List.mem_filter.mpr ⟨he, by simp [hs]⟩) hne
        · rw [if_neg hd] at hne
          exact absurd (by unfold makedirs; exact List.mem_append_left _ he) hne
      · rw [cleanup_cache_dir, if_neg hp, if_pos hb] at hne
        exact absurd he hne

/-- C4 witness: a foreign directory is left untouched, and a removed entry of
a `.fitcache` directory lies strictly below it. -/
theorem C4_cleanup_refuses_foreign_dirs_witness :
    cleanup_cache_dir "/tmp/evil" [FsEntry.mk ["tmp", "evil", "f"] EntryKind.file] =
      [FsEntry.mk ["tmp", "evil", "f"] EntryKind.file] ∧
    (basename (normpath "/tmp/.fitcache") = ".fitcache" ∧
      strictlyUnder (pathComps "/tmp/.fitcache") ["tmp", ".fitcache", "f"] = true) :=
  ⟨C4_cleanup_refuses_foreign_dirs.1 "/tmp/evil"
      [FsEntry.mk ["tmp", "evil", "f"] EntryKind.file] (by decide),
    C4_cleanup_refuses_foreign_dirs.2 "/tmp/.fitcache"
      [FsEntry.mk ["tmp", ".fitcache"] EntryKind.dir,
        FsEntry.mk ["tmp", ".fitcache", "f"] EntryKind.file]
      (FsEntry.mk ["tmp", ".fitcache", "f"] EntryKind.file)
      (by decide) (by decide)⟩

/-- C5: with the seven-day window, an activity whose parsed start time is one
second inside the boundary is retained, one exactly on the boundary is
retained (the comparison is `start_time >= cutoff`), and one a second older
than the boundary is dropped. -/
theorem C5_context_filter_boundary (now : Int) (a : ActivityRec) (s : String) (t : Int)
    (hs : a.startTimeLocal = some s) (hp : parseDT s = some t) :
    (now - t = 604800 - 1 → filter_activities_by_date now 7 [a] = [a]) ∧
    (now - t = 604800 → filter_activities_by_date now 7 [a] = [a]) ∧
    (now - t = 604800 + 1 → filter_activities_by_date now 7 [a] = []) := by
  have hsne : ¬ (s = "") := by
    intro h
    rw [h] at hp
    exact Option.noConfusion ((rfl : parseDT "" = none) ▸ hp)
  have hkeep : keepByDate now 7 a = decide (now - 7 * 86400 ≤ t) := by
    simp [keepByDate, hs, hsne, hp]
  refine ⟨fun h => ?_, fun h => ?_, fun h => ?_⟩ <;>
    simp only [filter_activities_by_date, List.filter_cons, List.filter_nil, hkeep] <;>
    [rw [if_pos (by simpa using by omega)]; rw [if_pos (by simpa using by omega)];
      rw [if_neg (by simpa using by omega)]]

/-- C5 witness: a concrete activity dated `2024-01-15 10:30:00` evaluated at
a `now` exactly seven days later is retained. -/
theorem C5_context_filter_boundary_witness :
    filter_activities_by_date 1705919400 7
      [ActivityRec.mk none (some "2024-01-15 10:30:00") (some "running") none none none none] =
      [ActivityRec.mk none (some "2024-01-15 10:30:00") (some "running") none none none none] :=
  (C5_context_filter_boundary 1705919400
    (ActivityRec.mk none (some "2024-01-15 10:30:00") (some "running") none none none none)
    "2024-01-15 10:30:00" 1705314600 rfl (by decide)).2.1 (by decide)

/-- C6: lap extraction yields `none` when the document failed to parse and
when it contains zero laps, and it never yields an empty list. -/
theorem C6_lap_extraction_none_not_empty :
    (∀ msg : String, parse_tcx_intervals (Except.error msg) = none) ∧
    (∀ laps : List TcxLap, laps = [] → parse_tcx_intervals (Except.ok laps) = none) ∧
    (∀ (r : Except String (List TcxLap)) (rows : List String),
      parse_tcx_intervals r = some rows → rows ≠ []) := by
  refine ⟨fun msg => rfl, fun laps h => by rw [h]; rfl, ?_⟩
  intro r rows h
  cases r with
  | error msg => exact Option.noConfusion h
  | ok laps =>
    rw [parse_tcx_intervals] at h
    cases hm : mapE formatLapRow laps with
    | error u => rw [hm] at h; exact Option.noConfusion h
    | ok rows0 =>
      rw [hm] at h
      by_cases he : rows0.isEmpty
      · simp [he] at h
      · simp [he] at h
        rw [← h]
        simpa [List.isEmpty_iff] using he

/-- C6 witness: the zero-lap document yields `none`. -/
theorem C6_lap_extraction_none_not_empty_witness :
    parse_tcx_intervals (Except.ok ([] : List TcxLap)) = none :=
  C6_lap_extraction_none_not_empty.2.1 [] rfl

/-- C9: both time-window filters return a sublist of their input (order
preserved, elements unmodified), and each element is kept with its full
multiplicity exactly when the predicate admits it — no reordering, no
deduplication. -/
theorem C9_filters_pure_order_preserving (now : Int) (days hours : Nat)
    (acts : List ActivityRec) (a : ActivityRec) :
    (filter_activities_by_date now days acts).Sublist acts ∧
    (filter_recent_runs now hours acts).Sublist acts ∧
    (filter_activities_by_date now days acts).count a =
      (if keepByDate now days a then acts.count a else 0) ∧
    (filter_recent_runs now hours acts).count a =
      (if keepRecentRun now hours a then acts.count a else 0) := by
  refine ⟨List.filter_sublist _, List.filter_sublist _, ?_, ?_⟩
  · by_cases h : keepByDate now days a
    · simp [filter_activities_by_date, h, List.count_filter]
    · rw [if_neg (by simpa using h)]
      rw [filter_activities_by_date, List.count_eq_zero]
      intro hmem
      exact h (List.of_mem_filter hmem)
  · by_cases h : keepRecentRun now hours a
    · simp [filter_recent_runs, h, List.count_filter]
    · rw [if_neg (by simpa using h)]
      rw [filter_recent_runs, List.count_eq_zero]
      intro hmem
      exact h (List.of_mem_filter hmem)

/-- C10: the fallback listing renders at most the first fifteen runs: a
successful render has at most fifteen rows, and two inputs that agree on
their first fifteen elements render identically. -/
theorem C10_fallback_truncates_at_fifteen :
    (∀ (runs : List RunEntry) (its : List String),
      fallbackItems runs = some its → its.length ≤ 15) ∧
    (∀ l1 l2 : List RunEntry, l1.take 15 = l2.take 15 →
      format_runs_fallback l1 = format_runs_fallback l2) := by
  constructor
  · intro runs its h
    have hl := mapO_length renderRunItem (runs.take 15) its h
    rw [hl, List.length_take]
    omega
  · intro l1 l2 h
    cases l1 with
    | nil =>
      have h2 : l2.take 15 = [] := h.symm.trans (by simp)
      have : l2 = [] := by
        rcases List.take_eq_nil_iff.mp h2 with h15 | hl2
        · exact absurd h15 (by omega)
        · exact hl2
      rw [this]
    | cons x l1t =>
      cases l2 with
      | nil =>
        have h1 : (x :: l1t).take 15 = [] := h.trans (by simp)
        rcases List.take_eq_nil_iff.mp h1 with h15 | hl1
        · exact absurd h15 (by omega)
        · exact absurd hl1 (by simp)
      | cons y l2t =>
        simp only [format_runs_fallback, fallbackItems, h, List.isEmpty_cons]

/-- C10 witness: lists of twenty and sixteen copies of the same run render
identically, and the empty render has at most fifteen rows. -/
theorem C10_fallback_truncates_at_fifteen_witness :
    ([] : List String).length ≤ 15 ∧
    format_runs_fallback
        (List.replicate 20 (RunEntry.mk (some "2026-02-24 10:00:00") none none none)) =
      format_runs_fallback
        (List.replicate 16 (RunEntry.mk (some "2026-02-24 10:00:00") none none none)) :=
  ⟨C10_fallback_truncates_at_fifteen.1 [] [] rfl,
    C10_fallback_truncates_at_fifteen.2
      (List.replicate 20 (RunEntry.mk (some "2026-02-24 10:00:00") none none none))
      (List.replicate 16 (RunEntry.mk (some "2026-02-24 10:00:00") none none none))
      (by decide)⟩
